import Mathlib

/-! A shallow embedding of `userspace/src/usbip_list.c` (usbip list).

The C file is embedded function by function, in its `__linux__` configuration
(the one that contains `is_usb_device`, `show_devices`, `show_devices2` and the
`-l` option).

* Everything the C file reaches through a header or a library (the socket, the
  name database, sysfs attribute readers, `opendir`/`readdir`, `getopt_long`)
  is a field of `World` or part of the initial `State`: the theorems quantify
  over all of them.
* `State` is what the C code mutates or emits: the socket's receive queue, the
  text written to stdout, the diagnostics written through `err`, and ghost logs
  (the receive calls made, the sockets opened and closed, the calls of
  `usbip_names_free`).
* A `for` loop whose bound does not change is a recursion on the number of
  iterations left, with the loop counter as a second argument.
* Strings are Lean strings, one character standing for one C `char`.
* `dbg(...)` lines only write to the debug log and are left out.
-/

namespace UsbipList

/-! ## Data model -/

/-- Modelled from the spec: `struct op_common` of `usbip_network.h`, which is not in
the source tree at hand; the common reply header carries a reply code and a status. -/
structure op_common where
  code : Nat
  status : Nat
  deriving DecidableEq, Repr

/-- Modelled from the spec: `struct op_devlist_reply` of `usbip_network.h`, which is not
in the source tree at hand; a 32-bit device count. -/
structure op_devlist_reply where
  ndev : Nat
  deriving DecidableEq, Repr

/-- Modelled from the spec: `struct usb_device` of `usbip_common.h`, which is not in the
source tree at hand; the fields are those of the device record of the wire protocol.
The code reduces a field to its width where it uses it: 16 bits for the vendor and
product ids, 8 bits for class, subclass, protocol and the interface count. -/
structure usb_device where
  path : String
  busid : String
  busnum : Nat
  devnum : Nat
  speed : Nat
  idVendor : Nat
  idProduct : Nat
  bcdDevice : Nat
  bDeviceClass : Nat
  bDeviceSubClass : Nat
  bDeviceProtocol : Nat
  bConfigurationValue : Nat
  bNumConfigurations : Nat
  bNumInterfaces : Nat
  deriving DecidableEq, Repr

/-- Modelled from the spec: `struct usb_interface` of `usbip_common.h`, which is not in
the source tree at hand; class, subclass and protocol bytes (the padding is not exposed). -/
structure usb_interface where
  bInterfaceClass : Nat
  bInterfaceSubClass : Nat
  bInterfaceProtocol : Nat
  deriving DecidableEq, Repr

/-- The bytes one successful `usbip_recv` call delivers, read through each of the
struct types the caller may cast its buffer to, after the `PACK_*`/`pack_*`
conversion to host byte order. The byte layouts live in headers outside the
source tree at hand, so the four readings are kept independent: a theorem proved
for all segments holds for whatever layout relates them. -/
structure Segment where
  common : op_common
  devlist : op_devlist_reply
  udev : usb_device
  uinf : usb_interface
  deriving DecidableEq, Repr

/-- One receive call, as logged in `State.recvs`: which buffer it was to fill.
`usb_device i` is the receive of line 95 in iteration `i`, `usb_interface i j` the
receive of line 115 in iteration `j` of the inner loop of device `i`. -/
inductive RecvEv where
  | op_common
  | op_devlist
  | usb_device (i : Nat)
  | usb_interface (i j : Nat)
  deriving DecidableEq, Repr

/-- What the program changes while it runs. -/
structure State where
  /-- results of the receive calls still to come on the socket, in order: `some seg`
  is a receive that succeeds with `seg`, `none` one that fails; past the end of
  the list every receive fails (the peer's stream is over) -/
  inbox : List (Option Segment)
  /-- text written by `printf`, one element per call -/
  stdout : List String
  /-- messages passed to `err`, one element per call -/
  stderr : List String
  /-- ghost log: the receive calls made so far, failed ones included -/
  recvs : List RecvEv
  /-- ghost log: descriptors returned by a successful `usbip_net_tcp_connect` -/
  opened : List Int
  /-- ghost log: descriptors passed to `close` -/
  closed : List Int
  /-- ghost log: number of `usbip_names_free` calls -/
  names_freed : Nat
  deriving DecidableEq, Repr

/-- Everything the program only reads: constants of absent headers and the
collaborators (network, name database, sysfs, directory). -/
structure World where
  /-- the reply code `OP_REP_DEVLIST` of `usbip_network.h` -/
  OP_REP_DEVLIST : Nat
  /-- the string `USBIP_PORT_STRING` of `usbip_network.h` -/
  USBIP_PORT_STRING : String
  /-- the string `USBIDS_FILE` -/
  USBIDS_FILE : String
  /-- text of `gai_strerror(sockfd)` -/
  gai_strerror : Int → String
  /-- text of `strerror(errno)` after a failed `opendir` -/
  strerror_errno : String
  /-- return value of `usbip_net_tcp_connect(host, USBIP_PORT_STRING)` -/
  usbip_net_tcp_connect : String → Int
  /-- return value of `usbip_send_op_common(sockfd, OP_REQ_DEVLIST, 0)` -/
  usbip_send_op_common : Int
  /-- return value of `usbip_names_init(USBIDS_FILE)` -/
  usbip_names_init : Int
  /-- text `usbip_names_get_product` writes for a vendor and product id -/
  usbip_names_get_product : Nat → Nat → String
  /-- text `usbip_names_get_class` writes for class, subclass, protocol -/
  usbip_names_get_class : Nat → Nat → Nat → String
  /-- result of `opendir("/sys/bus/usb/devices/")`: `none` when it returns NULL, else
  the `d_name` of the entries `readdir` then yields, in iteration order -/
  opendir : Option (List String)
  /-- return value of `read_bConfigurationValue(busid)` -/
  read_bConfigurationValue : String → Int
  /-- return value of `read_bNumInterfaces(busid)` -/
  read_bNumInterfaces : String → Int
  /-- contents of the zeroed buffer `name` after `getdevicename(busid, name, ..)` -/
  getdevicename : String → String
  /-- contents of the buffer `driver` after `getdriver(busid, conf, i, driver, ..)`,
  given its contents before the call (last argument) -/
  getdriver : String → Int → Int → String → String

/-! ## Output primitives -/

/-- The call `printf(..)` with the formatted text `text`. -/
def State.printf (s : State) (text : String) : State :=
  { s with stdout := s.stdout ++ [text] }

/-- The call `err(..)` with the formatted message `msg`. -/
def State.err (s : State) (msg : String) : State :=
  { s with stderr := s.stderr ++ [msg] }

/-- The conversion `%<width>s`: right-justified, padded with blanks on the left. -/
def fmt_s (width : Nat) (s : String) : String :=
  String.mk (List.replicate (width - s.length) ' ') ++ s

/-- The conversion `%d`. -/
def fmt_d (n : Int) : String := toString n

/-- The conversion `%<width>d`. -/
def fmt_wd (width : Nat) (n : Int) : String := fmt_s width (fmt_d n)

/-- Conversion of a `uint32_t` to `int` (32 bits, two's complement), as done by
`return rep.ndev;` in a function returning `int`. -/
def to_int (n : Nat) : Int :=
  if n % 2 ^ 32 < 2 ^ 31 then ((n % 2 ^ 32 : Nat) : Int) else ((n % 2 ^ 32 : Nat) : Int) - 2 ^ 32

/-- The usage text, lines 45-52, with the `-l` line of the `__linux__` build. -/
def usbip_list_usage_string : String :=
  "usbip list [-p|--parsable] <args>\n" ++
  "    -p, --parsable         Parsable list format\n" ++
  "    -r, --remote=<host>    List the exported USB devices on <host>\n" ++
  "    -l, --local            List the local USB devices\n"

/-- The function `usbip_list_usage`, lines 54-57. -/
def usbip_list_usage (s : State) : State :=
  s.printf ("usage: " ++ usbip_list_usage_string)

/-! ## Remote query -/

/-- The call `usbip_recv(sockfd, buf, size)`: takes the next result off the receive
queue and logs the call. `none` stands for a negative return value. -/
def usbip_recv (ev : RecvEv) (s : State) : Option Segment × State :=
  match s.inbox with
  | some seg :: rest => (some seg, { s with inbox := rest, recvs := s.recvs ++ [ev] })
  | none :: rest => (none, { s with inbox := rest, recvs := s.recvs ++ [ev] })
  | [] => (none, { s with recvs := s.recvs ++ [ev] })

/-- Modelled from the spec: `usbip_recv_op_common` of `usbip_network.c`, which is not in
the source tree at hand. It receives one common reply header and fails (negative
return value) when the receive fails or when the header's code is not the expected
one; otherwise it returns 0. -/
def usbip_recv_op_common (code : Nat) (s : State) : Int × State :=
  match usbip_recv RecvEv.op_common s with
  | (none, s1) => (-1, s1)
  | (some seg, s1) => if seg.common.code ≠ code then (-1, s1) else (0, s1)

/-- The inner loop `for (int j=0; j < udev.bNumInterfaces; j++)` of
`query_exported_devices`, in device iteration `i`. `rem` is
`udev.bNumInterfaces - j`, so the loop test `j < udev.bNumInterfaces` is
`rem ≠ 0`. The result is `false` when the loop left the function by `return -1`. -/
def query_interfaces (w : World) (i : Nat) : Nat → Nat → State → Bool × State
  | 0, _, s => (true, s)
  | rem + 1, j, s =>
    match usbip_recv (RecvEv.usb_interface i j) s with
    | (none, s1) => (false, s1.err ("recv usb_interface[" ++ fmt_d j ++ "]"))
    | (some seg, s1) =>
      let uinf := seg.uinf
      let class_name := w.usbip_names_get_class (uinf.bInterfaceClass % 256)
        (uinf.bInterfaceSubClass % 256) (uinf.bInterfaceProtocol % 256)
      query_interfaces w i rem (j + 1)
        (s1.printf (fmt_s 8 " " ++ ": " ++ fmt_wd 2 j ++ " - " ++ class_name ++ "\n"))

/-- The outer loop `for (unsigned int i=0; i < rep.ndev; i++)` of
`query_exported_devices`. `rem` is `rep.ndev - i`, so the loop test
`i < rep.ndev` is `rem ≠ 0`. The result is `false` when the loop left the
function by `return -1`. -/
def query_devices (w : World) : Nat → Nat → State → Bool × State
  | 0, _, s => (true, s)
  | rem + 1, i, s =>
    match usbip_recv (RecvEv.usb_device i) s with
    | (none, s1) => (false, s1.err ("recv usb_device[" ++ fmt_d i ++ "]"))
    | (some seg, s1) =>
      let udev := seg.udev
      let product_name := w.usbip_names_get_product (udev.idVendor % 65536)
        (udev.idProduct % 65536)
      let class_name := w.usbip_names_get_class (udev.bDeviceClass % 256)
        (udev.bDeviceSubClass % 256) (udev.bDeviceProtocol % 256)
      let s2 := s1.printf (fmt_s 8 udev.busid ++ ": " ++ product_name ++ "\n")
      let s3 := s2.printf (fmt_s 8 " " ++ ": " ++ udev.path ++ "\n")
      let s4 := s3.printf (fmt_s 8 " " ++ ": " ++ class_name ++ "\n")
      match query_interfaces w i (udev.bNumInterfaces % 256) 0 s4 with
      | (false, s5) => (false, s5)
      | (true, s5) => query_devices w rem (i + 1) (s5.printf "\n")

/-- The function `query_exported_devices`, lines 59-134. The count `rep.ndev` is a
`uint32_t`; the value returned is its conversion to `int`. -/
def query_exported_devices (w : World) (_sockfd : Int) (s : State) : Int × State :=
  if w.usbip_send_op_common < 0 then (-1, s.err "send op_common")
  else
    match usbip_recv_op_common w.OP_REP_DEVLIST s with
    | (ret, s1) =>
      if ret < 0 then (-1, s1.err "recv op_common")
      else
        match usbip_recv RecvEv.op_devlist s1 with
        | (none, s2) => (-1, s2.err "recv op_devlist")
        | (some seg, s2) =>
          let ndev := seg.devlist.ndev % 2 ^ 32
          match query_devices w ndev 0 s2 with
          | (false, s3) => (-1, s3)
          | (true, s3) => (to_int ndev, s3)

/-- The function `show_exported_devices`, lines 136-163: the socket is closed on
the path that returns 0 only. -/
def show_exported_devices (w : World) (host : String) (s : State) : Int × State :=
  let sockfd := w.usbip_net_tcp_connect host
  if sockfd < 0 then
    (-1, s.err ("unable to connect to " ++ host ++ " port " ++ w.USBIP_PORT_STRING ++ ": " ++
      w.gai_strerror sockfd ++ "\n"))
  else
    let s0 := { s with opened := s.opened ++ [sockfd] }
    let s1 := s0.printf ("- " ++ host ++ "\n")
    match query_exported_devices w sockfd s1 with
    | (ret, s2) =>
      if ret < 0 then (-1, s2.err "query")
      else (0, { s2 with closed := s2.closed ++ [sockfd] })

/-! ## Local enumeration -/

/-- The one-character expression that matches the character `c`. -/
def ere_char (c : Char) : RegularExpression Char := RegularExpression.char c

/-- The bracket expression `[0-9]`. -/
def ere_digit : RegularExpression Char :=
  ere_char '0' + ere_char '1' + ere_char '2' + ere_char '3' + ere_char '4' +
  ere_char '5' + ere_char '6' + ere_char '7' + ere_char '8' + ere_char '9'

/-- The ERE repetition `P+`: one or more `P`. -/
def ere_plus (P : RegularExpression Char) : RegularExpression Char :=
  P * RegularExpression.star P

/-- The pattern `[0-9]+-[0-9]+(\.[0-9]+)*` that `is_usb_device` compiles; the
anchors `^` and `$` around it make `regexec` match the whole string, which is what
`rmatch` decides. -/
def busid_regex : RegularExpression Char :=
  ere_plus ere_digit * ere_char '-' * ere_plus ere_digit *
    RegularExpression.star (ere_char '.' * ere_plus ere_digit)

/-- The function `is_usb_device`: `regexec` returns 0 on a match, and the function
then returns 1, else 0. -/
def is_usb_device (busid : String) : Int :=
  if busid_regex.rmatch busid.toList then 1 else 0

/-- The loop `for (i = 0; i < ninf; i++)` of `show_devices`; `rem` is `ninf - i`
(zero when `ninf ≤ 0`), `driver` the contents of the buffer `driver`. -/
def show_devices_interfaces (w : World) (busid : String) (conf : Int) :
    Nat → Nat → String → State → State
  | 0, _, _, s => s
  | rem + 1, i, driver, s =>
    let driver1 := w.getdriver busid conf i driver
    show_devices_interfaces w busid conf rem (i + 1) driver1
      (s.printf ("         " ++ busid ++ ":" ++ fmt_d conf ++ "." ++ fmt_d i ++ " -> " ++
        driver1 ++ "\n"))

/-- The loop `for (;;)` over `readdir` of `show_devices`, on the entry names still
to be returned. -/
def show_devices_loop (w : World) : List String → State → State
  | [], s => s
  | busid :: rest, s =>
    if is_usb_device busid ≠ 0 then
      let conf := w.read_bConfigurationValue busid
      let ninf := w.read_bNumInterfaces busid
      let name := w.getdevicename busid
      let s1 := s.printf (" - busid " ++ busid ++ " (" ++ name ++ ")\n")
      let s2 := show_devices_interfaces w busid conf ninf.toNat 0 "" s1
      show_devices_loop w rest (s2.printf "\n")
    else show_devices_loop w rest s

/-- The function `show_devices`. When `opendir` returns NULL the code reports it
through `err` and goes on: it prints the title and calls `readdir(NULL)`, which
has no defined behaviour; the result is then `none` (no return value). -/
def show_devices (w : World) (s : State) : Option Int × State :=
  match w.opendir with
  | none => (none, (s.err ("opendir: " ++ w.strerror_errno)).printf "List USB devices\n")
  | some entries =>
    let s1 := s.printf "List USB devices\n"
    (some 0, show_devices_loop w entries s1)

/-- The loop `for (i = 0; i < ninf; i++)` of `show_devices2`; `rem` is `ninf - i`
(zero when `ninf ≤ 0`), `driver` the contents of the buffer `driver`. -/
def show_devices2_interfaces (w : World) (busid : String) (conf : Int) :
    Nat → Nat → String → State → State
  | 0, _, _, s => s
  | rem + 1, i, driver, s =>
    let driver1 := w.getdriver busid conf i driver
    show_devices2_interfaces w busid conf rem (i + 1) driver1
      (s.printf (busid ++ ":" ++ fmt_d conf ++ "." ++ fmt_d i ++ "=" ++ driver1 ++ "#"))

/-- The loop `for (;;)` over `readdir` of `show_devices2`, on the entry names still
to be returned. -/
def show_devices2_loop (w : World) : List String → State → State
  | [], s => s
  | busid :: rest, s =>
    if is_usb_device busid ≠ 0 then
      let conf := w.read_bConfigurationValue busid
      let ninf := w.read_bNumInterfaces busid
      let name := w.getdevicename busid
      let s1 := s.printf ("busid=" ++ busid ++ "#usbid=" ++ name ++ "#")
      let s2 := show_devices2_interfaces w busid conf ninf.toNat 0 "" s1
      show_devices2_loop w rest (s2.printf "\n")
    else show_devices2_loop w rest s

/-- The function `show_devices2`; for `opendir` returning NULL see `show_devices`
(no title is printed here before `readdir(NULL)`). -/
def show_devices2 (w : World) (s : State) : Option Int × State :=
  match w.opendir with
  | none => (none, s.err ("opendir: " ++ w.strerror_errno))
  | some entries => (some 0, show_devices2_loop w entries s)

/-! ## Command line -/

/-- One result of `getopt_long(argc, argv, "pr:l", opts, NULL)`: the option
character it returns and the value of `optarg`. The end of the list is the
return value `-1`. -/
structure GetOpt where
  opt : Char
  optarg : String
  deriving DecidableEq, Repr

/-- The label `out:` of `usbip_list`: `usbip_names_free(); return ret;`. It is reached
only when the pass before it returned; a pass without a return value (see
`show_devices`) leaves the call without one. -/
def usbip_list_out (r : Option Int × State) : Option Int × State :=
  match r.1 with
  | none => r
  | some ret => (some ret, { r.2 with names_freed := r.2.names_freed + 1 })

/-- The loop `for (;;)` over `getopt_long` of `usbip_list`, up to and including
the labels `err_out:` and `out:`. `ret` is still `-1` when `err_out` is reached. -/
def usbip_list_loop (w : World) : List GetOpt → Bool → State → Option Int × State
  | [], _, s => usbip_list_out (some (-1), usbip_list_usage s)
  | o :: rest, is_parsable, s =>
    if o.opt = 'p' then usbip_list_loop w rest true s
    else if o.opt = 'r' then
      let r := show_exported_devices w o.optarg s
      usbip_list_out (some r.1, r.2)
    else if o.opt = 'l' then
      if is_parsable then usbip_list_out (show_devices2 w s)
      else usbip_list_out (show_devices w s)
    else usbip_list_out (some (-1), usbip_list_usage s)

/-- The function `usbip_list`, lines 278-327, on the results `getopt_long` yields
for its arguments. -/
def usbip_list (w : World) (opts : List GetOpt) (s : State) : Option Int × State :=
  let s1 := if w.usbip_names_init ≠ 0 then s.err ("failed to open " ++ w.USBIDS_FILE ++ "\n") else s
  usbip_list_loop w opts false s1

/-! ## Specification-side definitions

The definitions below restate what the specification says in its own terms; the
theorems compare them with the embedding of the code above. -/

/-- The text on stdout: the `printf` outputs, concatenated. -/
def text (out : List String) : String := out.foldr (fun a b => a ++ b) ""

/-- What a peer puts on the wire for one device: the device record, then its
interface records. -/
def wire_device (d : Segment × List Segment) : List (Option Segment) :=
  some d.1 :: d.2.map some

/-- The receive calls the protocol prescribes for device `i` with `m` interfaces. -/
def device_recvs (i m : Nat) : List RecvEv :=
  RecvEv.usb_device i :: (List.range m).map (RecvEv.usb_interface i)

/-- The three lines that open the block of a device: bus id and product name,
path, class. -/
def device_header (w : World) (d : Segment) : List String :=
  [fmt_s 8 d.udev.busid ++ ": " ++
     w.usbip_names_get_product (d.udev.idVendor % 65536) (d.udev.idProduct % 65536) ++ "\n",
   fmt_s 8 " " ++ ": " ++ d.udev.path ++ "\n",
   fmt_s 8 " " ++ ": " ++
     w.usbip_names_get_class (d.udev.bDeviceClass % 256) (d.udev.bDeviceSubClass % 256)
       (d.udev.bDeviceProtocol % 256) ++ "\n"]

/-- The line of interface number `j`. -/
def interface_line (w : World) (j : Nat) (f : Segment) : String :=
  fmt_s 8 " " ++ ": " ++ fmt_wd 2 j ++ " - " ++
    w.usbip_names_get_class (f.uinf.bInterfaceClass % 256) (f.uinf.bInterfaceSubClass % 256)
      (f.uinf.bInterfaceProtocol % 256) ++ "\n"

/-- The interface lines of a device, numbered from 0 in ascending order. -/
def interface_lines (w : World) (ifs : List Segment) : List String :=
  ifs.enum.map (fun p => interface_line w p.1 p.2)

/-- The block of one device: header, one line per interface, blank line. -/
def device_block (w : World) (d : Segment × List Segment) : List String :=
  device_header w d.1 ++ interface_lines w d.2 ++ ["\n"]

/-- Whether the next receive on this queue fails. -/
def recv_fails : List (Option Segment) → Bool
  | some _ :: _ => false
  | _ => true

/-- One or more decimal digits. -/
def Digits (x : List Char) : Prop := x ≠ [] ∧ ∀ c ∈ x, c.isDigit = true

/-- The bus-id grammar in the words of the specification: one or more digits, a
literal `-`, one or more digits, then zero or more groups of `.` and one or more
digits. -/
def BusIdGrammar (s : List Char) : Prop :=
  ∃ (a b : List Char) (gs : List (List Char)),
    Digits a ∧ Digits b ∧ (∀ g ∈ gs, Digits g) ∧
    s = a ++ '-' :: b ++ (gs.map (fun g => '.' :: g)).flatten

/-- The directory entries that are enumerated: those `is_usb_device` accepts, in
directory order. -/
def accepted (entries : List String) : List String :=
  entries.filter (fun b => decide (is_usb_device b = 1))

/-- The driver name of interface `i`: what the buffer `driver` holds after the
call `getdriver(busid, conf, i, driver, ..)`, the buffer being zeroed before the
call for interface 0. -/
def driver_name (w : World) (b : String) (c : Int) : Nat → String
  | 0 => w.getdriver b c 0 ""
  | i + 1 => w.getdriver b c ((i + 1 : Nat) : Int) (driver_name w b c i)

/-- The entry of device `b` in the format of `show_devices`: title line, one line
per interface `0..k-1`, blank line. -/
def device_entry (b n : String) (c k : Int) (d : Nat → String) : List String :=
  [" - busid " ++ b ++ " (" ++ n ++ ")\n"] ++
  (List.range k.toNat).map (fun (i : Nat) =>
    "         " ++ b ++ ":" ++ fmt_d c ++ "." ++ fmt_d i ++ " -> " ++ d i ++ "\n") ++
  ["\n"]

/-- The entry of device `b` in the parsable format, as the pieces `show_devices2`
prints: the bus id and name fields, one field per interface `0..k-1`, newline. -/
def device_entry2 (b n : String) (c k : Int) (d : Nat → String) : List String :=
  ["busid=" ++ b ++ "#usbid=" ++ n ++ "#"] ++
  (List.range k.toNat).map (fun (i : Nat) =>
    b ++ ":" ++ fmt_d c ++ "." ++ fmt_d i ++ "=" ++ d i ++ "#") ++
  ["\n"]

/-- The parsable line of a device with bus id `b`, name `n`, configuration value `c`,
`k` interfaces and driver names `d 0 .. d (k-1)`. -/
def parsable_line (b n : String) (c k : Int) (d : Nat → String) : String :=
  "busid=" ++ b ++ "#usbid=" ++ n ++ "#" ++
  text ((List.range k.toNat).map (fun (i : Nat) =>
    b ++ ":" ++ fmt_d c ++ "." ++ fmt_d i ++ "=" ++ d i ++ "#")) ++
  "\n"

/-- The state in which `usbip_list` enters its option loop. -/
def after_names_init (w : World) (s : State) : State :=
  if w.usbip_names_init ≠ 0 then s.err ("failed to open " ++ w.USBIDS_FILE ++ "\n") else s

/-- What the wire holds of the device whose transfer breaks off: nothing when the
device record itself fails, else the device record and the interface records
that still arrived. -/
def wire_broken : Option (Segment × List Segment) → List (Option Segment)
  | none => []
  | some d => wire_device d

/-- What has been printed of the device whose transfer breaks off: nothing when the
device record itself failed, else its header and the lines of the interface
records that still arrived (no closing blank line). -/
def broken_block (w : World) : Option (Segment × List Segment) → List String
  | none => []
  | some d => device_header w d.1 ++ interface_lines w d.2

/-- The receive calls made for device `i` whose transfer breaks off; the last one
is the failing call. -/
def broken_recvs (i : Nat) : Option (Segment × List Segment) → List RecvEv
  | none => [RecvEv.usb_device i]
  | some d => device_recvs i (d.2.length + 1)

/-- The diagnostic of the failing receive. -/
def broken_diagnostic (i : Nat) : Option (Segment × List Segment) → String
  | none => "recv usb_device[" ++ fmt_d i ++ "]"
  | some d => "recv usb_interface[" ++ fmt_d d.2.length ++ "]"

/-- The transfer of the device breaks off before its last interface record. -/
def broken_short : Option (Segment × List Segment) → Bool
  | none => true
  | some d => decide (d.2.length < d.1.udev.bNumInterfaces % 256)

/-! ## Concrete worlds and states used to evaluate the embedding -/

/-- A world with a reachable peer, a small name database and a registry holding
`1-1`, `1-1.2`, `usb1`, `1-1:1.0`. -/
def demo_world : World where
  OP_REP_DEVLIST := 5
  USBIP_PORT_STRING := "3240"
  USBIDS_FILE := "/usr/share/hwdata/usb.ids"
  gai_strerror := fun _ => "Name or service not known"
  strerror_errno := "No such file or directory"
  usbip_net_tcp_connect := fun _ => 3
  usbip_send_op_common := 0
  usbip_names_init := 0
  usbip_names_get_product := fun _ _ => "unknown product"
  usbip_names_get_class := fun _ _ _ => "unknown class"
  opendir := some ["1-1", "1-1.2", "usb1", "1-1:1.0"]
  read_bConfigurationValue := fun _ => 1
  read_bNumInterfaces := fun b => if b = "1-1" then 1 else 0
  getdevicename := fun b => if b = "1-1" then "Widget" else "Gadget"
  getdriver := fun _ _ _ _ => "hub"

/-- The world `demo_world` with a registry directory that cannot be opened. -/
def no_registry_world : World := { demo_world with opendir := none }

/-- A zeroed device record. -/
def zero_device : usb_device :=
  { path := "", busid := "", busnum := 0, devnum := 0, speed := 0, idVendor := 0,
    idProduct := 0, bcdDevice := 0, bDeviceClass := 0, bDeviceSubClass := 0,
    bDeviceProtocol := 0, bConfigurationValue := 0, bNumConfigurations := 0,
    bNumInterfaces := 0 }

/-- A zeroed receive buffer. -/
def zero_segment : Segment :=
  { common := { code := 0, status := 0 }, devlist := { ndev := 0 }, udev := zero_device,
    uinf := { bInterfaceClass := 0, bInterfaceSubClass := 0, bInterfaceProtocol := 0 } }

/-- A common reply header with the given code. -/
def header_segment (code : Nat) : Segment :=
  { zero_segment with common := { code := code, status := 0 } }

/-- A devlist reply header declaring `n` devices. -/
def devlist_segment (n : Nat) : Segment :=
  { zero_segment with devlist := { ndev := n } }

/-- A device record with the given bus id, path and interface count. -/
def device_segment (busid path : String) (m : Nat) : Segment :=
  { zero_segment with
    udev := { zero_device with busid := busid, path := path, bNumInterfaces := m } }

/-- An interface record of the given class. -/
def interface_segment (cls : Nat) : Segment :=
  { zero_segment with
    uinf := { bInterfaceClass := cls, bInterfaceSubClass := 0, bInterfaceProtocol := 0 } }

/-- The initial state of a run whose socket will deliver `inbox`. -/
def initial (inbox : List (Option Segment)) : State :=
  { inbox := inbox, stdout := [], stderr := [], recvs := [], opened := [], closed := [],
    names_freed := 0 }

/-- A complete exchange: header, devlist header declaring two devices, device `1-1`
with one interface, device `1-2` with none. -/
def two_devices_inbox : List (Option Segment) :=
  [some (header_segment 5), some (devlist_segment 2),
   some (device_segment "1-1" "/sys/devices/usb1/1-1" 1), some (interface_segment 9),
   some (device_segment "1-2" "/sys/devices/usb1/1-2" 0)]

/-- An exchange that declares two devices and ends after the first one. -/
def truncated_inbox : List (Option Segment) :=
  [some (header_segment 5), some (devlist_segment 2),
   some (device_segment "1-1" "/sys/devices/usb1/1-1" 1), some (interface_segment 9)]

/-- An exchange whose common reply header carries a code other than the expected 5. -/
def wrong_code_inbox : List (Option Segment) :=
  [some (header_segment 3), some (devlist_segment 1),
   some (device_segment "1-1" "/sys/devices/usb1/1-1" 0)]

/-- An exchange declaring `2^31` devices without interfaces, all of them sent. -/
def huge_inbox : List (Option Segment) :=
  some (header_segment 5) :: some (devlist_segment 2147483648) ::
    (List.replicate 2147483648 (device_segment "1-1" "" 0, ([] : List Segment))).flatMap
      wire_device

/-- An exchange that declares two devices and breaks off inside the second one:
its record announces two interfaces, one arrives, the next receive fails. -/
def truncated_interface_inbox : List (Option Segment) :=
  [some (header_segment 5), some (devlist_segment 2),
   some (device_segment "1-1" "/sys/devices/usb1/1-1" 1), some (interface_segment 9),
   some (device_segment "1-2" "/sys/devices/usb1/1-2" 2), some (interface_segment 3),
   none]

/-- The contents of the buffer `driver` after the call for interface `i + k`, when
it held `driver` before the call for interface `i`. -/
def driver_from (w : World) (b : String) (c : Int) (i : Nat) (driver : String) : Nat → String
  | 0 => w.getdriver b c (i : Nat) driver
  | k + 1 => w.getdriver b c ((i + (k + 1) : Nat) : Int) (driver_from w b c i driver k)

/-- The world `demo_world` with a registry holding the single entry `1-1`. -/
def widget_world : World := { demo_world with opendir := some ["1-1"] }

/-- Whether the option selects a discovery pass: `-r` or `-l`. -/
def is_mode (o : GetOpt) : Bool := decide (o.opt = 'r') || decide (o.opt = 'l')

/-- The first `-r` or `-l` of the option sequence. -/
def first_mode (opts : List GetOpt) : Option GetOpt := opts.find? is_mode

/-- Whether a `-p` stands before the first `-r` or `-l`. -/
def parsable_before (opts : List GetOpt) : Bool :=
  (opts.takeWhile (fun o => !is_mode o)).any (fun o => decide (o.opt = 'p'))

/-- The options `-p -l -r peer`. -/
def demo_options : List GetOpt :=
  [{ opt := 'p', optarg := "" }, { opt := 'l', optarg := "" }, { opt := 'r', optarg := "peer" }]

/-! ## The remote query: helper lemmas -/

theorem usbip_recv_some (ev : RecvEv) (s : State) (seg : Segment)
    (rest : List (Option Segment)) (h : s.inbox = some seg :: rest) :
    usbip_recv ev s = (some seg, { s with inbox := rest, recvs := s.recvs ++ [ev] }) := by
  unfold usbip_recv
  rw [h]

theorem usbip_recv_fails (ev : RecvEv) (s : State) (h : recv_fails s.inbox = true) :
    usbip_recv ev s = (none, { s with inbox := s.inbox.tail, recvs := s.recvs ++ [ev] }) := by
  unfold usbip_recv
  cases hin : s.inbox with
  | nil => cases s; simp_all
  | cons a rest =>
    cases a with
    | none => rfl
    | some seg => rw [hin] at h; simp [recv_fails] at h

/-- The inner loop, when the queue holds all the interface records it asks for:
it receives them in order, prints one line each, and goes on. -/
theorem query_interfaces_ok (w : World) (i : Nat) :
    ∀ (ifs : List Segment) (j : Nat) (s : State) (rest : List (Option Segment)),
      s.inbox = ifs.map some ++ rest →
      query_interfaces w i ifs.length j s =
        (true, { s with
          inbox := rest,
          recvs := s.recvs ++ (List.range' j ifs.length).map (RecvEv.usb_interface i),
          stdout := s.stdout ++ (ifs.enumFrom j).map (fun p => interface_line w p.1 p.2) }) := by
  intro ifs
  induction ifs with
  | nil =>
    intro j s rest h
    cases s
    simp_all [query_interfaces]
  | cons f ifs ih =>
    intro j s rest h
    have h1 : s.inbox = some f :: (ifs.map some ++ rest) := by simpa using h
    simp only [List.length_cons, query_interfaces, usbip_recv_some _ s f _ h1]
    rw [ih (j + 1) _ rest rfl]
    simp [State.printf, interface_line, List.range'_succ, List.enumFrom_cons]

/-- The inner loop, when the receive of interface record `j + ifs.length` fails
after `ifs.length` good ones: the lines of the good ones stay printed, the loop
leaves by `return -1`. -/
theorem query_interfaces_fail (w : World) (i : Nat) :
    ∀ (ifs : List Segment) (rem j : Nat) (s : State) (bad : List (Option Segment)),
      s.inbox = ifs.map some ++ bad → recv_fails bad = true → ifs.length < rem →
      query_interfaces w i rem j s =
        (false, { s with
          inbox := bad.tail,
          recvs := s.recvs ++ (List.range' j (ifs.length + 1)).map (RecvEv.usb_interface i),
          stdout := s.stdout ++ (ifs.enumFrom j).map (fun p => interface_line w p.1 p.2),
          stderr := s.stderr ++
            ["recv usb_interface[" ++ fmt_d ((j + ifs.length : Nat) : Int) ++ "]"] }) := by
  intro ifs
  induction ifs with
  | nil =>
    intro rem j s bad h hbad hlt
    obtain ⟨r, rfl⟩ : ∃ r, rem = r + 1 := ⟨rem - 1, by simp at hlt; omega⟩
    have h1 : s.inbox = bad := by simpa using h
    simp only [query_interfaces, usbip_recv_fails _ s (h1 ▸ hbad)]
    cases s
    simp_all [State.err]
  | cons f ifs ih =>
    intro rem j s bad h hbad hlt
    obtain ⟨r, rfl⟩ : ∃ r, rem = r + 1 := ⟨rem - 1, by simp at hlt; omega⟩
    have h1 : s.inbox = some f :: (ifs.map some ++ bad) := by simpa using h
    simp only [query_interfaces, usbip_recv_some _ s f _ h1]
    rw [ih r (j + 1) _ bad rfl hbad (by simpa using hlt)]
    simp [State.printf, interface_line, List.range'_succ, List.enumFrom_cons]
    rw [add_right_comm, add_assoc]

/-- The outer loop, when the queue holds every record it asks for: device `i` is
received, then its interfaces, then device `i + 1`; one block is printed per
device. -/
theorem query_devices_ok (w : World) :
    ∀ (devs : List (Segment × List Segment)) (i : Nat) (s : State)
      (rest : List (Option Segment)),
      (∀ d ∈ devs, d.1.udev.bNumInterfaces % 256 = d.2.length) →
      s.inbox = devs.flatMap wire_device ++ rest →
      query_devices w devs.length i s =
        (true, { s with
          inbox := rest,
          recvs := s.recvs ++
            (devs.enumFrom i).flatMap (fun p => device_recvs p.1 p.2.2.length),
          stdout := s.stdout ++ (devs.map (device_block w)).flatten }) := by
  intro devs
  induction devs with
  | nil =>
    intro i s rest _ h
    cases s
    simp_all [query_devices]
  | cons d devs ih =>
    intro i s rest hM h
    have hd : d.1.udev.bNumInterfaces % 256 = d.2.length := hM d (by simp)
    have h1 : s.inbox = some d.1 :: (d.2.map some ++ (devs.flatMap wire_device ++ rest)) := by
      simpa [wire_device] using h
    simp only [List.length_cons, query_devices, usbip_recv_some _ s d.1 _ h1, hd]
    rw [query_interfaces_ok w i d.2 0 _ (devs.flatMap wire_device ++ rest) rfl]
    simp only []
    rw [ih (i + 1) _ rest (fun e he => hM e (by simp [he])) rfl]
    simp [State.printf, device_block, device_header, interface_lines, device_recvs,
      List.enumFrom_cons, List.enum, List.range_eq_range']

/-- The outer loop, when the transfer breaks off in device `i + devs.length` after
`devs.length` complete devices: what was printed before the failing receive
stays, and the loop leaves by `return -1`. -/
theorem query_devices_fail (w : World) :
    ∀ (devs : List (Segment × List Segment)) (rem i : Nat) (s : State)
      (part : Option (Segment × List Segment)) (bad : List (Option Segment)),
      (∀ d ∈ devs, d.1.udev.bNumInterfaces % 256 = d.2.length) →
      broken_short part = true → recv_fails bad = true → devs.length < rem →
      s.inbox = devs.flatMap wire_device ++ (wire_broken part ++ bad) →
      query_devices w rem i s =
        (false, { s with
          inbox := bad.tail,
          recvs := s.recvs ++
            (devs.enumFrom i).flatMap (fun p => device_recvs p.1 p.2.2.length) ++
            broken_recvs (i + devs.length) part,
          stdout := s.stdout ++ (devs.map (device_block w)).flatten ++ broken_block w part,
          stderr := s.stderr ++ [broken_diagnostic (i + devs.length) part] }) := by
  intro devs
  induction devs with
  | nil =>
    intro rem i s part bad _ hshort hbad hlt h
    obtain ⟨r, rfl⟩ : ∃ r, rem = r + 1 := ⟨rem - 1, by simp at hlt; omega⟩
    cases part with
    | none =>
      have h1 : s.inbox = bad := by simpa [wire_broken] using h
      simp only [query_devices, usbip_recv_fails _ s (h1 ▸ hbad)]
      cases s
      simp_all [State.err, broken_recvs, broken_block, broken_diagnostic]
    | some d =>
      have h1 : s.inbox = some d.1 :: (d.2.map some ++ bad) := by
        simpa [wire_broken, wire_device] using h
      simp only [query_devices, usbip_recv_some _ s d.1 _ h1]
      rw [query_interfaces_fail w i d.2 _ 0 _ bad rfl hbad (by simpa [broken_short] using hshort)]
      simp [State.printf, broken_recvs, broken_block, broken_diagnostic, device_header,
        interface_lines, device_recvs, List.enum, List.range_eq_range']
  | cons d devs ih =>
    intro rem i s part bad hM hshort hbad hlt h
    obtain ⟨r, rfl⟩ : ∃ r, rem = r + 1 := ⟨rem - 1, by simp at hlt; omega⟩
    have hd : d.1.udev.bNumInterfaces % 256 = d.2.length := hM d (by simp)
    have h1 : s.inbox = some d.1 ::
        (d.2.map some ++ (devs.flatMap wire_device ++ (wire_broken part ++ bad))) := by
      simpa [wire_device] using h
    simp only [query_devices, usbip_recv_some _ s d.1 _ h1, hd]
    rw [query_interfaces_ok w i d.2 0 _ _ rfl]
    simp only []
    rw [ih r (i + 1) _ part bad (fun e he => hM e (by simp [he])) hshort hbad
      (by simpa using hlt) rfl]
    have e : i + 1 + devs.length = i + (devs.length + 1) := by omega
    simp [State.printf, device_block, device_header, interface_lines, device_recvs,
      List.enumFrom_cons, List.enum, List.range_eq_range', e]

/-- The whole query, when the send and every receive succeed. -/
theorem query_exported_devices_ok (w : World) (sockfd : Int) (s : State) (hdr dl : Segment)
    (devs : List (Segment × List Segment)) (rest : List (Option Segment))
    (hsend : ¬ w.usbip_send_op_common < 0)
    (hcode : hdr.common.code = w.OP_REP_DEVLIST)
    (hN : dl.devlist.ndev % 2 ^ 32 = devs.length)
    (hM : ∀ d ∈ devs, d.1.udev.bNumInterfaces % 256 = d.2.length)
    (hin : s.inbox = some hdr :: some dl :: (devs.flatMap wire_device ++ rest)) :
    query_exported_devices w sockfd s =
      (to_int devs.length, { s with
        inbox := rest,
        recvs := s.recvs ++ RecvEv.op_common :: RecvEv.op_devlist ::
          devs.enum.flatMap (fun p => device_recvs p.1 p.2.2.length),
        stdout := s.stdout ++ (devs.map (device_block w)).flatten }) := by
  simp only [query_exported_devices, if_neg hsend, usbip_recv_op_common,
    usbip_recv_some _ s hdr _ hin, hcode, ne_eq, not_true_eq_false, if_false]
  rw [if_neg (by decide), usbip_recv_some _ _ dl _ rfl]
  simp only [hN]
  rw [query_devices_ok w devs 0 _ rest hM rfl]
  simp [List.enum]

/-- The whole query, when the common reply header cannot be received or carries
an unexpected code. -/
theorem query_exported_devices_no_reply (w : World) (sockfd : Int) (s : State)
    (h : (usbip_recv_op_common w.OP_REP_DEVLIST s).1 < 0) :
    query_exported_devices w sockfd s =
      (-1, if w.usbip_send_op_common < 0 then s.err "send op_common"
           else (usbip_recv_op_common w.OP_REP_DEVLIST s).2.err "recv op_common") := by
  unfold query_exported_devices
  split
  · rfl
  · simp only [h, if_true]

/-- The status `show_exported_devices` returns, in terms of those of the connect
and of the query. -/
theorem show_exported_devices_status (w : World) (host : String) (s : State) :
    (show_exported_devices w host s).1 =
      if w.usbip_net_tcp_connect host < 0 then -1
      else if (query_exported_devices w (w.usbip_net_tcp_connect host)
          (State.printf { s with opened := s.opened ++ [w.usbip_net_tcp_connect host] }
            ("- " ++ host ++ "\n"))).1 < 0 then -1
      else 0 := by
  unfold show_exported_devices
  by_cases hc : w.usbip_net_tcp_connect host < 0
  · simp only [hc, if_true]
  · simp only [hc, if_false]
    split <;> rfl

/-- The count `2^31` does not fit the return type `int`. -/
theorem to_int_wraps : to_int 2147483648 = -2147483648 := by
  norm_num [to_int]

/-! ## Claims on the remote query -/

/-- C1: when the send succeeds and the wire holds the common reply header with the
expected code, the devlist header declaring `N = devs.length` devices, and for each
device its record followed by its `M_i` interface records (`M_i` being the 8-bit
interface count of the record), `query_exported_devices` receives exactly the
reply header, the devlist header, then for `i = 0..N-1` device record `i`
followed by its interface records `0..M_i-1`; and it prints exactly `N` blocks in
that order, block `i` holding the header lines of device `i`, one line per
interface numbered `0..M_i-1` ascending, and a blank line. Nothing is written to
stderr and nothing else is received. -/
theorem query_exported_devices_receive_order (w : World) (sockfd : Int) (s : State)
    (hdr dl : Segment) (devs : List (Segment × List Segment))
    (rest : List (Option Segment))
    (hsend : ¬ w.usbip_send_op_common < 0)
    (hcode : hdr.common.code = w.OP_REP_DEVLIST)
    (hN : dl.devlist.ndev % 2 ^ 32 = devs.length)
    (hM : ∀ d ∈ devs, d.1.udev.bNumInterfaces % 256 = d.2.length)
    (hin : s.inbox = some hdr :: some dl :: (devs.flatMap wire_device ++ rest)) :
    (query_exported_devices w sockfd s).2 =
      { s with
        inbox := rest,
        recvs := s.recvs ++ RecvEv.op_common :: RecvEv.op_devlist ::
          devs.enum.flatMap (fun p =>
            RecvEv.usb_device p.1 ::
              (List.range p.2.2.length).map (fun j => RecvEv.usb_interface p.1 j)),
        stdout := s.stdout ++ (devs.map (fun d =>
          device_header w d.1 ++
            d.2.enum.map (fun q => interface_line w q.1 q.2) ++ ["\n"])).flatten } := by
  rw [query_exported_devices_ok w sockfd s hdr dl devs rest hsend hcode hN hM hin]
  rfl

/-- Scenario A, evaluated: two devices declared, the first with one interface, the
second with none. -/
theorem query_exported_devices_receive_order_witness :
    (¬ demo_world.usbip_send_op_common < 0) ∧
    (header_segment 5).common.code = demo_world.OP_REP_DEVLIST ∧
    (devlist_segment 2).devlist.ndev % 2 ^ 32 =
      [(device_segment "1-1" "/sys/devices/usb1/1-1" 1, [interface_segment 9]),
       (device_segment "1-2" "/sys/devices/usb1/1-2" 0, [])].length ∧
    (query_exported_devices demo_world 3 (initial two_devices_inbox)).2 =
      { inbox := [],
        stdout :=
          ["     1-1: unknown product\n",
           "        : /sys/devices/usb1/1-1\n",
           "        : unknown class\n",
           "        :  0 - unknown class\n",
           "\n",
           "     1-2: unknown product\n",
           "        : /sys/devices/usb1/1-2\n",
           "        : unknown class\n",
           "\n"],
        stderr := [],
        recvs := [RecvEv.op_common, RecvEv.op_devlist, RecvEv.usb_device 0,
          RecvEv.usb_interface 0 0, RecvEv.usb_device 1],
        opened := [], closed := [], names_freed := 0 } :=
  ⟨by decide, rfl, rfl,
    (query_exported_devices_receive_order demo_world 3 (initial two_devices_inbox)
      (header_segment 5) (devlist_segment 2)
      [(device_segment "1-1" "/sys/devices/usb1/1-1" 1, [interface_segment 9]),
       (device_segment "1-2" "/sys/devices/usb1/1-2" 0, [])] []
      (by decide) rfl rfl (by decide) rfl).trans (by decide)⟩

/-- C2: when the common reply header that arrives carries a code other than the
expected devlist-reply code (so that `usbip_recv_op_common` reports failure),
`query_exported_devices` returns -1, the only receive it has made is that of the
common header (none at all when the send had already failed), it prints nothing,
and `show_exported_devices` returns -1 having printed at most its `- host` title. -/
theorem query_exported_devices_reply_code_mismatch (w : World) (host : String)
    (sockfd : Int) (s : State) (hdr : Segment) (rest : List (Option Segment))
    (hin : s.inbox = some hdr :: rest)
    (hne : hdr.common.code ≠ w.OP_REP_DEVLIST) :
    (usbip_recv_op_common w.OP_REP_DEVLIST s).1 = -1 ∧
    (query_exported_devices w sockfd s).1 = -1 ∧
    (query_exported_devices w sockfd s).2.recvs =
      s.recvs ++ (if w.usbip_send_op_common < 0 then [] else [RecvEv.op_common]) ∧
    (query_exported_devices w sockfd s).2.stdout = s.stdout ∧
    (show_exported_devices w host s).1 = -1 ∧
    (show_exported_devices w host s).2.stdout =
      s.stdout ++ (if w.usbip_net_tcp_connect host < 0 then [] else ["- " ++ host ++ "\n"]) ∧
    (show_exported_devices w host s).2.recvs =
      s.recvs ++ (if w.usbip_net_tcp_connect host < 0 ∨ w.usbip_send_op_common < 0 then []
        else [RecvEv.op_common]) := by
  have hrc : ∀ t : State, t.inbox = some hdr :: rest →
      usbip_recv_op_common w.OP_REP_DEVLIST t =
        (-1, { t with inbox := rest, recvs := t.recvs ++ [RecvEv.op_common] }) := by
    intro t ht
    simp only [usbip_recv_op_common, usbip_recv_some _ t hdr rest ht, hne, ne_eq,
      not_false_eq_true, if_true]
  have hq : ∀ (fd : Int) (t : State), t.inbox = some hdr :: rest →
      query_exported_devices w fd t =
        (-1, if w.usbip_send_op_common < 0 then t.err "send op_common"
             else State.err { t with inbox := rest, recvs := t.recvs ++ [RecvEv.op_common] }
               "recv op_common") := by
    intro fd t ht
    rw [query_exported_devices_no_reply w fd t (by rw [hrc t ht]; show (-1 : Int) < 0; decide), hrc t ht]
  refine ⟨by rw [hrc s hin], by rw [hq sockfd s hin], ?_, ?_, ?_, ?_, ?_⟩
  · rw [hq sockfd s hin]
    by_cases hs : w.usbip_send_op_common < 0 <;> simp [hs, State.err]
  · rw [hq sockfd s hin]
    by_cases hs : w.usbip_send_op_common < 0 <;> simp [hs, State.err]
  · unfold show_exported_devices
    by_cases hc : w.usbip_net_tcp_connect host < 0
    · simp [hc]
    · simp only [hc, if_false]
      rw [hq _ _ (by simpa [State.printf] using hin)]
      simp
  · unfold show_exported_devices
    by_cases hc : w.usbip_net_tcp_connect host < 0
    · simp [hc, State.err]
    · simp only [hc, if_false]
      rw [hq _ _ (by simpa [State.printf] using hin)]
      by_cases hs : w.usbip_send_op_common < 0 <;> simp [hs, State.err, State.printf]
  · unfold show_exported_devices
    by_cases hc : w.usbip_net_tcp_connect host < 0
    · simp [hc, State.err]
    · simp only [hc, if_false]
      rw [hq _ _ (by simpa [State.printf] using hin)]
      by_cases hs : w.usbip_send_op_common < 0 <;> simp [hs, State.err, State.printf]

/-- Scenario B, evaluated: the peer answers with code 3 where 5 is expected. -/
theorem query_exported_devices_reply_code_mismatch_witness :
    (initial wrong_code_inbox).inbox = some (header_segment 3) :: wrong_code_inbox.tail ∧
    (header_segment 3).common.code ≠ demo_world.OP_REP_DEVLIST ∧
    (query_exported_devices demo_world 3 (initial wrong_code_inbox)).1 = -1 ∧
    (query_exported_devices demo_world 3 (initial wrong_code_inbox)).2.recvs =
      [RecvEv.op_common] ∧
    (query_exported_devices demo_world 3 (initial wrong_code_inbox)).2.stdout = [] ∧
    (show_exported_devices demo_world "peer" (initial wrong_code_inbox)).1 = -1 ∧
    (show_exported_devices demo_world "peer" (initial wrong_code_inbox)).2.stdout =
      ["- peer\n"] :=
  have h := query_exported_devices_reply_code_mismatch demo_world "peer" 3
    (initial wrong_code_inbox) (header_segment 3) wrong_code_inbox.tail rfl (by decide)
  ⟨rfl, by decide, h.2.1, h.2.2.1.trans (by decide), h.2.2.2.1.trans (by decide), h.2.2.2.2.1,
    h.2.2.2.2.2.1.trans (by decide)⟩

/-- C3, as stated, fails: the peer declares two devices and its stream ends after
the first one. The receive of device record 1 fails and the query returns -1,
but the block of device 0 has already been printed. -/
theorem query_exported_devices_truncated_counterexample :
    (query_exported_devices demo_world 3 (initial truncated_inbox)).1 = -1 ∧
    (query_exported_devices demo_world 3 (initial truncated_inbox)).2.recvs =
      [RecvEv.op_common, RecvEv.op_devlist, RecvEv.usb_device 0, RecvEv.usb_interface 0 0,
       RecvEv.usb_device 1] ∧
    (query_exported_devices demo_world 3 (initial truncated_inbox)).2.stdout =
      ["     1-1: unknown product\n",
       "        : /sys/devices/usb1/1-1\n",
       "        : unknown class\n",
       "        :  0 - unknown class\n",
       "\n"] ∧
    (query_exported_devices demo_world 3 (initial truncated_inbox)).2.stdout ≠ [] := by
  decide

/-- C3, amended: when the transfer breaks off in device `i = devs.length` (the
receive of device record `i` fails, or that of one of its interface records
does), `query_exported_devices` returns -1, the failing receive is the last one
it makes, it reports the failing receive on stderr, and what it has printed is
exactly what it printed before the failing receive: the complete blocks of
devices `0..i-1` and, when an interface record `j` of device `i` failed, the header
lines of device `i` and its interface lines `0..j-1`. -/
theorem query_exported_devices_truncated (w : World) (sockfd : Int) (s : State)
    (hdr dl : Segment) (devs : List (Segment × List Segment))
    (part : Option (Segment × List Segment)) (bad : List (Option Segment))
    (hsend : ¬ w.usbip_send_op_common < 0)
    (hcode : hdr.common.code = w.OP_REP_DEVLIST)
    (hN : devs.length < dl.devlist.ndev % 2 ^ 32)
    (hM : ∀ d ∈ devs, d.1.udev.bNumInterfaces % 256 = d.2.length)
    (hshort : broken_short part = true)
    (hbad : recv_fails bad = true)
    (hin : s.inbox =
      some hdr :: some dl :: (devs.flatMap wire_device ++ (wire_broken part ++ bad))) :
    query_exported_devices w sockfd s =
      (-1, { s with
        inbox := bad.tail,
        recvs := s.recvs ++ RecvEv.op_common :: RecvEv.op_devlist ::
          (devs.enum.flatMap (fun p => device_recvs p.1 p.2.2.length) ++
            broken_recvs devs.length part),
        stdout := s.stdout ++ ((devs.map (device_block w)).flatten ++ broken_block w part),
        stderr := s.stderr ++ [broken_diagnostic devs.length part] }) := by
  simp only [query_exported_devices, if_neg hsend, usbip_recv_op_common,
    usbip_recv_some _ s hdr _ hin, hcode, ne_eq, not_true_eq_false, if_false]
  rw [if_neg (by decide), usbip_recv_some _ _ dl _ rfl]
  simp only []
  rw [query_devices_fail w devs _ 0 _ part bad hM hshort hbad hN rfl]
  simp [List.enum]

/-- A truncated exchange, evaluated: the second device announces two interfaces,
one arrives, the next receive fails. -/
theorem query_exported_devices_truncated_witness :
    (¬ demo_world.usbip_send_op_common < 0) ∧
    broken_short (some (device_segment "1-2" "/sys/devices/usb1/1-2" 2,
      [interface_segment 3])) = true ∧
    recv_fails [none] = true ∧
    query_exported_devices demo_world 3 (initial truncated_interface_inbox) =
      (-1, { inbox := [],
             stdout :=
               ["     1-1: unknown product\n",
                "        : /sys/devices/usb1/1-1\n",
                "        : unknown class\n",
                "        :  0 - unknown class\n",
                "\n",
                "     1-2: unknown product\n",
                "        : /sys/devices/usb1/1-2\n",
                "        : unknown class\n",
                "        :  0 - unknown class\n"],
             stderr := ["recv usb_interface[1]"],
             recvs := [RecvEv.op_common, RecvEv.op_devlist, RecvEv.usb_device 0,
               RecvEv.usb_interface 0 0, RecvEv.usb_device 1, RecvEv.usb_interface 1 0,
               RecvEv.usb_interface 1 1],
             opened := [], closed := [], names_freed := 0 }) :=
  ⟨by decide, by decide, rfl,
    (query_exported_devices_truncated demo_world 3 (initial truncated_interface_inbox)
      (header_segment 5) (devlist_segment 2)
      [(device_segment "1-1" "/sys/devices/usb1/1-1" 1, [interface_segment 9])]
      (some (device_segment "1-2" "/sys/devices/usb1/1-2" 2, [interface_segment 3]))
      [none] (by decide) rfl (by decide) (by decide) (by decide) rfl rfl).trans (by decide)⟩

/-- C4, at its failing input: the connection opens (descriptor 3) and the peer
closes it without a reply. `show_exported_devices` returns -1 through the early
return of line 154 and never closes descriptor 3, whereas on the successful
exchange of scenario A it closes it once. -/
theorem show_exported_devices_leaves_socket_open :
    (show_exported_devices demo_world "peer" (initial [])).1 = -1 ∧
    (show_exported_devices demo_world "peer" (initial [])).2.opened = [3] ∧
    (show_exported_devices demo_world "peer" (initial [])).2.closed = [] ∧
    (show_exported_devices demo_world "peer" (initial two_devices_inbox)).1 = 0 ∧
    (show_exported_devices demo_world "peer" (initial two_devices_inbox)).2.opened = [3] ∧
    (show_exported_devices demo_world "peer" (initial two_devices_inbox)).2.closed = [3] := by
  decide

/-- C10, at its failing input: the peer declares `2^31` devices and sends every
one of them. Every receive succeeds, `return rep.ndev` converts the count to
`int`, the value is `-2^31`, and `show_exported_devices` takes it for a failure
and returns -1. -/
theorem query_exported_devices_count_wraps :
    (query_exported_devices demo_world 3 (initial huge_inbox)).1 = -2147483648 ∧
    (show_exported_devices demo_world "peer" (initial huge_inbox)).1 = -1 := by
  have hq : ∀ (fd : Int) (s : State), s.inbox = huge_inbox →
      (query_exported_devices demo_world fd s).1 = -2147483648 := by
    intro fd s hs
    have hsend : ¬ demo_world.usbip_send_op_common < 0 := by decide
    have hcode : (header_segment 5).common.code = demo_world.OP_REP_DEVLIST := rfl
    have hN : (devlist_segment 2147483648).devlist.ndev % 2 ^ 32 =
        (List.replicate 2147483648
          (device_segment "1-1" "" 0, ([] : List Segment))).length := by
      rw [List.length_replicate]
      show 2147483648 % 2 ^ 32 = 2147483648
      norm_num
    have hM : ∀ d ∈ List.replicate 2147483648
        (device_segment "1-1" "" 0, ([] : List Segment)),
        d.1.udev.bNumInterfaces % 256 = d.2.length := by
      intro d hd
      rw [List.eq_of_mem_replicate hd]
      rfl
    have hin : s.inbox = some (header_segment 5) :: some (devlist_segment 2147483648) ::
        ((List.replicate 2147483648
          (device_segment "1-1" "" 0, ([] : List Segment))).flatMap wire_device ++ []) := by
      rw [hs, List.append_nil]
      rfl
    have h := query_exported_devices_ok demo_world fd s _ _ _ _ hsend hcode hN hM hin
    rw [h, List.length_replicate]
    exact to_int_wraps
  refine ⟨hq _ _ rfl, ?_⟩
  rw [show_exported_devices_status, if_neg (by decide), hq _ _ rfl]
  decide

/-! ## The bus-id pattern -/

theorem isDigit_iff (c : Char) : c.isDigit = true ↔
    c = '0' ∨ c = '1' ∨ c = '2' ∨ c = '3' ∨ c = '4' ∨
    c = '5' ∨ c = '6' ∨ c = '7' ∨ c = '8' ∨ c = '9' := by
  constructor
  · intro h
    simp only [Char.isDigit, Bool.and_eq_true, decide_eq_true_eq] at h
    obtain ⟨h1, h2⟩ := h
    have h1n : 48 ≤ c.toNat := h1
    have h2n : c.toNat ≤ 57 := h2
    have hc : c = Char.ofNat c.toNat := (Char.ofNat_toNat c).symm
    generalize c.toNat = n at h1n h2n hc
    subst hc
    interval_cases n <;> decide
  · rintro (h | h | h | h | h | h | h | h | h | h) <;> subst h <;> decide

theorem mem_matches_char (a : Char) (x : List Char) :
    x ∈ (ere_char a).matches' ↔ x = [a] :=
  Iff.rfl

/-- The bracket expression `[0-9]` matches the one-character strings made of a
decimal digit. -/
theorem mem_ere_digit (x : List Char) :
    x ∈ ere_digit.matches' ↔ ∃ c, c.isDigit = true ∧ x = [c] := by
  simp only [ere_digit, RegularExpression.matches'_add, Language.mem_add, mem_matches_char,
    isDigit_iff]
  constructor
  · intro h
    rcases h with ((((((((h | h) | h) | h) | h) | h) | h) | h) | h) | h <;>
      (subst h; exact ⟨_, by simp, rfl⟩)
  · rintro ⟨c, hc, rfl⟩
    rcases hc with (h | h | h | h | h | h | h | h | h | h) <;> subst h <;> simp

/-- The expression `[0-9]+` matches the non-empty strings of decimal digits. -/
theorem mem_ere_plus_digit (x : List Char) :
    x ∈ (ere_plus ere_digit).matches' ↔ Digits x := by
  simp only [ere_plus, RegularExpression.matches'_mul, RegularExpression.matches'_star,
    Language.mem_mul, Language.mem_kstar, mem_ere_digit, Digits]
  constructor
  · rintro ⟨a, ⟨c, hc, rfl⟩, b, ⟨L, rfl, hL⟩, rfl⟩
    refine ⟨by simp, ?_⟩
    intro d hd
    simp only [List.singleton_append, List.mem_cons, List.mem_flatten] at hd
    rcases hd with rfl | ⟨l, hl, hdl⟩
    · exact hc
    · obtain ⟨e, he, rfl⟩ := hL l hl
      simp only [List.mem_singleton] at hdl
      subst hdl
      exact he
  · rintro ⟨hne, hall⟩
    cases x with
    | nil => exact absurd rfl hne
    | cons c t =>
      refine ⟨[c], ⟨c, hall c (by simp), rfl⟩, t, ⟨t.map (fun d => [d]), ?_, ?_⟩, rfl⟩
      · clear hall hne
        induction t with
        | nil => rfl
        | cons d t ih => simp [← ih]
      · intro y hy
        simp only [List.mem_map] at hy
        obtain ⟨d, hd, rfl⟩ := hy
        exact ⟨d, hall d (by simp [hd]), rfl⟩

/-- The language of the compiled pattern is the bus-id grammar. -/
theorem mem_busid_regex (s : List Char) : s ∈ busid_regex.matches' ↔ BusIdGrammar s := by
  simp only [busid_regex, RegularExpression.matches'_mul, RegularExpression.matches'_star,
    Language.mem_mul, Language.mem_kstar, mem_ere_plus_digit, mem_matches_char, BusIdGrammar]
  constructor
  · rintro ⟨x, ⟨y, ⟨a, ha, m, hm, rfl⟩, b, hb, rfl⟩, z, ⟨L, rfl, hL⟩, rfl⟩
    have hm1 := Set.mem_singleton_iff.mp hm
    subst hm1
    have hgroups : ∃ gs : List (List Char),
        (∀ g ∈ gs, Digits g) ∧ L = gs.map (fun g => '.' :: g) := by
      clear ha hb
      induction L with
      | nil => exact ⟨[], by simp, rfl⟩
      | cons l L ih =>
        obtain ⟨gs, hgs, rfl⟩ := ih (fun y hy => hL y (by simp [hy]))
        obtain ⟨d, rfl, g, hg, rfl⟩ := hL l (by simp)
        refine ⟨g :: gs, ?_, by simp⟩
        intro e he
        rcases List.mem_cons.mp he with rfl | h
        · exact hg
        · exact hgs e h
    obtain ⟨gs, hgs, rfl⟩ := hgroups
    exact ⟨a, b, gs, ha, hb, hgs, by simp⟩
  · rintro ⟨a, b, gs, ha, hb, hgs, rfl⟩
    refine ⟨a ++ ['-'] ++ b, ⟨a ++ ['-'], ⟨a, ha, ['-'], rfl, rfl⟩, b, hb, rfl⟩,
      (gs.map (fun g => '.' :: g)).flatten, ⟨gs.map (fun g => '.' :: g), rfl, ?_⟩, by simp⟩
    intro y hy
    obtain ⟨g, hg, rfl⟩ := List.mem_map.mp hy
    exact ⟨['.'], rfl, g, hgs g hg, rfl⟩

/-- The function `is_usb_device` returns 0 or 1. -/
theorem is_usb_device_ne_zero (b : String) : is_usb_device b ≠ 0 ↔ is_usb_device b = 1 := by
  unfold is_usb_device
  split <;> simp

/-- The function `is_usb_device` returns 1 exactly on the strings of the bus-id
grammar. -/
theorem is_usb_device_eq_one_iff (s : String) :
    is_usb_device s = 1 ↔ BusIdGrammar s.toList := by
  rw [← mem_busid_regex, ← RegularExpression.rmatch_iff_matches']
  unfold is_usb_device
  split <;> simp_all

/-- C5: `is_usb_device` returns 1 exactly on the strings of the bus-id grammar (one
or more digits, `-`, one or more digits, then zero or more groups of `.` and one
or more digits, nothing before or after) and 0 on every other string; `1-2`,
`1-2.3`, `1-2.3.4` are accepted and `usb1`, `1-`, `-1`, `1..2`, `1-1:1.0` rejected. -/
theorem is_usb_device_bus_id_grammar :
    (∀ s : String, (is_usb_device s = 1 ↔ BusIdGrammar s.toList) ∧
      (is_usb_device s = 0 ↔ ¬ BusIdGrammar s.toList)) ∧
    is_usb_device "1-2" = 1 ∧ is_usb_device "1-2.3" = 1 ∧ is_usb_device "1-2.3.4" = 1 ∧
    is_usb_device "usb1" = 0 ∧ is_usb_device "1-" = 0 ∧ is_usb_device "-1" = 0 ∧
    is_usb_device "1..2" = 0 ∧ is_usb_device "1-1:1.0" = 0 := by
  refine ⟨?_, by decide, by decide, by decide, by decide, by decide, by decide, by decide,
    by decide⟩
  intro s
  refine ⟨is_usb_device_eq_one_iff s, ?_⟩
  rw [← is_usb_device_eq_one_iff, ← is_usb_device_ne_zero]
  simp

/-! ## The local enumeration -/

theorem driver_from_succ (w : World) (b : String) (c : Int) (i : Nat) (driver : String) :
    ∀ k, driver_from w b c i driver (k + 1) =
      driver_from w b c (i + 1) (w.getdriver b c i driver) k := by
  intro k
  induction k with
  | zero => simp [driver_from]
  | succ k ih =>
    rw [driver_from, ih]
    conv_rhs => rw [driver_from]
    have e : i + (k + 1 + 1) = i + 1 + (k + 1) := by omega
    rw [e]

theorem driver_name_eq (w : World) (b : String) (c : Int) :
    ∀ k, driver_name w b c k = driver_from w b c 0 "" k := by
  intro k
  induction k with
  | zero => simp [driver_name, driver_from]
  | succ k ih => simp [driver_name, driver_from, ih]

/-- The interface loop of `show_devices` prints one line per interface, in
ascending order, and changes nothing else. -/
theorem show_devices_interfaces_eq (w : World) (b : String) (c : Int) :
    ∀ (rem i : Nat) (driver : String) (s : State),
      show_devices_interfaces w b c rem i driver s =
        { s with stdout := s.stdout ++ (List.range rem).map (fun (k : Nat) =>
            "         " ++ b ++ ":" ++ fmt_d c ++ "." ++ fmt_d ((i + k : Nat) : Int) ++ " -> " ++
              driver_from w b c i driver k ++ "\n") } := by
  intro rem
  induction rem with
  | zero => intro i driver s; simp [show_devices_interfaces]
  | succ rem ih =>
    intro i driver s
    rw [show_devices_interfaces, ih, List.range_succ_eq_map]
    simp only [State.printf, List.map_cons, List.map_map, List.append_assoc,
      List.singleton_append, Nat.add_zero, driver_from]
    congr 3
    apply List.map_congr_left
    intro k _
    simp only [Function.comp, Nat.succ_eq_add_one, driver_from_succ]
    have e : i + 1 + k = i + (k + 1) := by omega
    rw [e]

/-- The interface loop of `show_devices2` prints one field per interface, in
ascending order, and changes nothing else. -/
theorem show_devices2_interfaces_eq (w : World) (b : String) (c : Int) :
    ∀ (rem i : Nat) (driver : String) (s : State),
      show_devices2_interfaces w b c rem i driver s =
        { s with stdout := s.stdout ++ (List.range rem).map (fun (k : Nat) =>
            b ++ ":" ++ fmt_d c ++ "." ++ fmt_d ((i + k : Nat) : Int) ++ "=" ++
              driver_from w b c i driver k ++ "#") } := by
  intro rem
  induction rem with
  | zero => intro i driver s; simp [show_devices2_interfaces]
  | succ rem ih =>
    intro i driver s
    rw [show_devices2_interfaces, ih, List.range_succ_eq_map]
    simp only [State.printf, List.map_cons, List.map_map, List.append_assoc,
      List.singleton_append, Nat.add_zero, driver_from]
    congr 3
    apply List.map_congr_left
    intro k _
    simp only [Function.comp, Nat.succ_eq_add_one, driver_from_succ]
    have e : i + 1 + k = i + (k + 1) := by omega
    rw [e]

/-- The directory loop of `show_devices`: one entry per accepted name, in
directory order. -/
theorem show_devices_loop_eq (w : World) :
    ∀ (entries : List String) (s : State),
      show_devices_loop w entries s =
        { s with stdout := s.stdout ++ ((accepted entries).map (fun b =>
            device_entry b (w.getdevicename b) (w.read_bConfigurationValue b)
              (w.read_bNumInterfaces b)
              (driver_name w b (w.read_bConfigurationValue b)))).flatten } := by
  intro entries
  induction entries with
  | nil => intro s; simp [show_devices_loop, accepted]
  | cons b rest ih =>
    intro s
    by_cases hb : is_usb_device b = 1
    · have hb0 : is_usb_device b ≠ 0 := (is_usb_device_ne_zero b).mpr hb
      simp only [show_devices_loop, hb0, ne_eq, not_false_eq_true, if_true]
      rw [ih, show_devices_interfaces_eq]
      simp [accepted, hb, device_entry, State.printf, driver_name_eq]
    · have hb0 : ¬ is_usb_device b ≠ 0 := fun h => hb ((is_usb_device_ne_zero b).mp h)
      simp only [show_devices_loop, hb0, if_false]
      rw [ih]
      simp [accepted, hb]

/-- The directory loop of `show_devices2`: one entry per accepted name, in
directory order. -/
theorem show_devices2_loop_eq (w : World) :
    ∀ (entries : List String) (s : State),
      show_devices2_loop w entries s =
        { s with stdout := s.stdout ++ ((accepted entries).map (fun b =>
            device_entry2 b (w.getdevicename b) (w.read_bConfigurationValue b)
              (w.read_bNumInterfaces b)
              (driver_name w b (w.read_bConfigurationValue b)))).flatten } := by
  intro entries
  induction entries with
  | nil => intro s; simp [show_devices2_loop, accepted]
  | cons b rest ih =>
    intro s
    by_cases hb : is_usb_device b = 1
    · have hb0 : is_usb_device b ≠ 0 := (is_usb_device_ne_zero b).mpr hb
      simp only [show_devices2_loop, hb0, ne_eq, not_false_eq_true, if_true]
      rw [ih, show_devices2_interfaces_eq]
      simp [accepted, hb, device_entry2, State.printf, driver_name_eq]
    · have hb0 : ¬ is_usb_device b ≠ 0 := fun h => hb ((is_usb_device_ne_zero b).mp h)
      simp only [show_devices2_loop, hb0, if_false]
      rw [ih]
      simp [accepted, hb]

theorem text_append (a b : List String) : text (a ++ b) = text a ++ text b := by
  induction a with
  | nil => simp [text]
  | cons x a ih =>
    simp only [text, List.cons_append, List.foldr_cons] at ih ⊢
    rw [ih, String.append_assoc]

theorem text_flatten (l : List (List String)) : text l.flatten = text (l.map text) := by
  induction l with
  | nil => rfl
  | cons x l ih =>
    rw [List.flatten_cons, text_append, ih]
    rfl

/-- The pieces `show_devices2` prints for one device make up the parsable line. -/
theorem text_device_entry2 (b n : String) (c k : Int) (d : Nat → String) :
    text (device_entry2 b n c k d) = parsable_line b n c k d := by
  simp only [device_entry2, parsable_line, text_append]
  simp [text, String.append_assoc]

/-- C6: when the registry directory opens and `readdir` yields `entries`, whatever
the attribute readers return, `show_devices` prints its title and then one entry
for each name `is_usb_device` accepts, in directory order, and nothing for the
other names; `show_devices2` prints one entry for each accepted name, in directory
order, and nothing for the other names; both return 0 and touch nothing else. The accepted names are those
entries that belong to the bus-id grammar. -/
theorem show_devices_enumerates_accepted (w : World) (entries : List String) (s : State)
    (hopen : w.opendir = some entries) :
    show_devices w s =
      (some 0, { s with stdout := s.stdout ++ ("List USB devices\n" ::
        ((entries.filter (fun b => decide (is_usb_device b = 1))).map (fun b =>
          device_entry b (w.getdevicename b) (w.read_bConfigurationValue b)
            (w.read_bNumInterfaces b)
            (driver_name w b (w.read_bConfigurationValue b)))).flatten) }) ∧
    show_devices2 w s =
      (some 0, { s with stdout := s.stdout ++
        ((entries.filter (fun b => decide (is_usb_device b = 1))).map (fun b =>
          device_entry2 b (w.getdevicename b) (w.read_bConfigurationValue b)
            (w.read_bNumInterfaces b)
            (driver_name w b (w.read_bConfigurationValue b)))).flatten }) ∧
    (∀ b, b ∈ entries.filter (fun b => decide (is_usb_device b = 1)) ↔
      b ∈ entries ∧ BusIdGrammar b.toList) := by
  refine ⟨?_, ?_, ?_⟩
  · simp only [show_devices, hopen, show_devices_loop_eq, accepted, State.printf]
    simp
  · simp only [show_devices2, hopen, show_devices2_loop_eq, accepted]
  · intro b
    rw [List.mem_filter, decide_eq_true_eq, is_usb_device_eq_one_iff]

/-- Scenario C, evaluated: the registry holds `1-1`, `1-1.2`, `usb1`, `1-1:1.0`; entries
are printed for `1-1` and `1-1.2` only, in that order. -/
theorem show_devices_enumerates_accepted_witness :
    demo_world.opendir = some ["1-1", "1-1.2", "usb1", "1-1:1.0"] ∧
    show_devices demo_world (initial []) =
      (some 0, { initial [] with stdout :=
        ["List USB devices\n",
         " - busid 1-1 (Widget)\n", "         1-1:1.0 -> hub\n", "\n",
         " - busid 1-1.2 (Gadget)\n", "\n"] }) ∧
    show_devices2 demo_world (initial []) =
      (some 0, { initial [] with stdout :=
        ["busid=1-1#usbid=Widget#", "1-1:1.0=hub#", "\n",
         "busid=1-1.2#usbid=Gadget#", "\n"] }) :=
  have h := show_devices_enumerates_accepted demo_world ["1-1", "1-1.2", "usb1", "1-1:1.0"]
    (initial []) rfl
  ⟨rfl, h.1.trans (by decide), h.2.1.trans (by decide)⟩

/-- C7: when the registry directory opens, the text `show_devices2` writes is, for
each accepted bus id `b` in turn, with `n` the resolved name, `c` the configuration
value, `k` the interface count and `d_i` the driver names, exactly the line
`busid=` b `#usbid=` n `#`, then for `i = 0..k-1` ascending b `:` c `.` i `=` d_i `#`,
then a newline; and for `k ≤ 0` that line is `busid=` b `#usbid=` n `#` and a newline. -/
theorem show_devices2_parsable_line (w : World) (entries : List String) (s : State)
    (hopen : w.opendir = some entries) :
    text (show_devices2 w s).2.stdout =
      text s.stdout ++ text ((entries.filter (fun b => decide (is_usb_device b = 1))).map
        (fun b => parsable_line b (w.getdevicename b) (w.read_bConfigurationValue b)
          (w.read_bNumInterfaces b) (driver_name w b (w.read_bConfigurationValue b)))) ∧
    (∀ (b n : String) (c k : Int) (d : Nat → String),
      parsable_line b n c k d =
        "busid=" ++ b ++ "#usbid=" ++ n ++ "#" ++
        text ((List.range k.toNat).map (fun (i : Nat) =>
          b ++ ":" ++ fmt_d c ++ "." ++ fmt_d i ++ "=" ++ d i ++ "#")) ++ "\n") ∧
    (∀ (b n : String) (c k : Int) (d : Nat → String), k ≤ 0 →
      parsable_line b n c k d = "busid=" ++ b ++ "#usbid=" ++ n ++ "#" ++ "\n") := by
  refine ⟨?_, fun _ _ _ _ _ => rfl, ?_⟩
  · simp only [show_devices2, hopen, show_devices2_loop_eq, accepted]
    rw [text_append, text_flatten, List.map_map]
    congr 2
    apply List.map_congr_left
    intro b _
    exact text_device_entry2 _ _ _ _ _
  · intro b n c k d hk
    have hk0 : k.toNat = 0 := Int.toNat_eq_zero.mpr hk
    simp [parsable_line, hk0, text]

/-- Scenario D, evaluated: bus id `1-1`, name `Widget`, configuration value 1, one
interface bound to `hub`. -/
theorem show_devices2_parsable_line_witness :
    widget_world.opendir = some ["1-1"] ∧
    is_usb_device "1-1" = 1 ∧
    widget_world.getdevicename "1-1" = "Widget" ∧
    widget_world.read_bConfigurationValue "1-1" = 1 ∧
    widget_world.read_bNumInterfaces "1-1" = 1 ∧
    driver_name widget_world "1-1" 1 0 = "hub" ∧
    text (show_devices2 widget_world (initial [])).2.stdout =
      "busid=1-1#usbid=Widget#1-1:1.0=hub#\n" ∧
    parsable_line "1-1" "Widget" 1 0 (fun _ => "hub") =
      "busid=" ++ "1-1" ++ "#usbid=" ++ "Widget" ++ "#" ++ "\n" :=
  ⟨rfl, by decide, by decide, rfl, by decide, rfl,
    (show_devices2_parsable_line widget_world ["1-1"] (initial []) rfl).1.trans (by decide),
    (show_devices2_parsable_line widget_world ["1-1"] (initial []) rfl).2.2
      "1-1" "Widget" 1 0 (fun _ => "hub") (le_refl 0)⟩

/-- C8, at its failing input: the registry directory cannot be opened. Neither
function returns an error status: `show_devices` reports `opendir` through `err`,
prints its title and calls `readdir(NULL)`; `show_devices2` reports `opendir` and
calls `readdir(NULL)`. In no world does either function return a status other
than 0. -/
theorem show_devices_opendir_failure_not_fatal :
    show_devices no_registry_world (initial []) =
      (none, { initial [] with
        stdout := ["List USB devices\n"],
        stderr := ["opendir: No such file or directory"] }) ∧
    show_devices2 no_registry_world (initial []) =
      (none, { initial [] with stderr := ["opendir: No such file or directory"] }) ∧
    (∀ (w : World) (s : State),
      (show_devices w s).1 = none ∨ (show_devices w s).1 = some 0) ∧
    (∀ (w : World) (s : State),
      (show_devices2 w s).1 = none ∨ (show_devices2 w s).1 = some 0) := by
  refine ⟨by decide, by decide, ?_, ?_⟩
  · intro w s
    unfold show_devices
    cases w.opendir <;> simp
  · intro w s
    unfold show_devices2
    cases w.opendir <;> simp

/-! ## The command line -/

/-- The option loop, started with the flag `is_parsable` at `flag`, on a sequence
of recognised options. -/
theorem usbip_list_loop_eq (w : World) :
    ∀ (opts : List GetOpt) (flag : Bool) (s : State),
      (∀ o ∈ opts, o.opt = 'p' ∨ o.opt = 'r' ∨ o.opt = 'l') →
      usbip_list_loop w opts flag s =
        match first_mode opts with
        | none => usbip_list_out (some (-1), usbip_list_usage s)
        | some o =>
          if o.opt = 'r' then
            usbip_list_out (some (show_exported_devices w o.optarg s).1,
              (show_exported_devices w o.optarg s).2)
          else if (flag || parsable_before opts) = true then usbip_list_out (show_devices2 w s)
          else usbip_list_out (show_devices w s) := by
  intro opts
  induction opts with
  | nil => intro flag s _; rfl
  | cons o rest ih =>
    intro flag s hrec
    have hrest : ∀ x ∈ rest, x.opt = 'p' ∨ x.opt = 'r' ∨ x.opt = 'l' :=
      fun x hx => hrec x (by simp [hx])
    rcases hrec o (by simp) with hp | hr | hl
    · have hm : is_mode o = false := by simp [is_mode, hp]
      simp only [usbip_list_loop, hp, if_true]
      rw [ih true s hrest]
      simp [first_mode, parsable_before, List.find?_cons, List.takeWhile_cons, hm, hp]
    · have hm : is_mode o = true := by simp [is_mode, hr]
      have hnp : o.opt ≠ 'p' := by rw [hr]; decide
      simp [usbip_list_loop, first_mode, List.find?_cons, hm, hr]
    · have hm : is_mode o = true := by simp [is_mode, hl]
      have hnp : o.opt ≠ 'p' := by rw [hl]; decide
      have hnr : o.opt ≠ 'r' := by rw [hl]; decide
      simp only [usbip_list_loop, hnp, hnr, hl, if_true, if_false, first_mode,
        List.find?_cons, hm, parsable_before, List.takeWhile_cons]
      cases flag <;> simp

/-- Options after the first `-r` or `-l` are never read, whatever they are. -/
theorem usbip_list_loop_ignores_rest (w : World) :
    ∀ (pre : List GetOpt) (o : GetOpt) (post post2 : List GetOpt) (flag : Bool) (s : State),
      is_mode o = true → (∀ x ∈ pre, x.opt = 'p') →
      usbip_list_loop w (pre ++ o :: post) flag s =
        usbip_list_loop w (pre ++ o :: post2) flag s := by
  intro pre
  induction pre with
  | nil =>
    intro o post post2 flag s hm _
    have hnp : o.opt ≠ 'p' := by
      intro h
      simp [is_mode, h] at hm
    simp only [List.nil_append, usbip_list_loop, hnp, if_false]
  | cons x pre ih =>
    intro o post post2 flag s hm hpre
    have hx : x.opt = 'p' := hpre x (by simp)
    simp only [List.cons_append, usbip_list_loop, hx, if_true]
    exact ih o post post2 true s hm (fun y hy => hpre y (by simp [hy]))

/-- C9: on a sequence of recognised options (`-p`, `-r <host>`, `-l`), `usbip_list`
runs the one pass selected by the first `-r` or `-l` and returns its status
(`show_exported_devices` on the argument of `-r`; for `-l`, `show_devices2` when a
`-p` stands before it, else `show_devices`), its final state being that of this
one pass followed by `usbip_names_free`; whatever follows the first `-r` or `-l` has
no effect; without `-r` and `-l` it runs no pass, prints the usage text and returns
-1. It returns a status whenever the registry directory can be opened. -/
theorem usbip_list_first_mode_wins (w : World) (opts : List GetOpt) (s : State)
    (hrec : ∀ o ∈ opts, o.opt = 'p' ∨ o.opt = 'r' ∨ o.opt = 'l') :
    (first_mode opts = none →
      usbip_list w opts s =
        (some (-1), { after_names_init w s with
          stdout := (after_names_init w s).stdout ++ ["usage: " ++ usbip_list_usage_string],
          names_freed := (after_names_init w s).names_freed + 1 })) ∧
    (∀ o, first_mode opts = some o → o.opt = 'r' →
      usbip_list w opts s =
        (some (show_exported_devices w o.optarg (after_names_init w s)).1,
          { (show_exported_devices w o.optarg (after_names_init w s)).2 with
            names_freed :=
              (show_exported_devices w o.optarg (after_names_init w s)).2.names_freed + 1 })) ∧
    (∀ o, first_mode opts = some o → o.opt = 'l' →
      usbip_list w opts s =
        usbip_list_out (if parsable_before opts = true then show_devices2 w (after_names_init w s)
          else show_devices w (after_names_init w s)) ∧
      (usbip_list w opts s).1 =
        (if parsable_before opts = true then show_devices2 w (after_names_init w s)
          else show_devices w (after_names_init w s)).1) ∧
    (∀ (pre : List GetOpt) (o : GetOpt) (post post2 : List GetOpt),
      opts = pre ++ o :: post → first_mode opts = some o → (∀ x ∈ pre, x.opt = 'p') →
      usbip_list w (pre ++ o :: post2) s = usbip_list w opts s) ∧
    (w.opendir ≠ none → ∃ r : Int, (usbip_list w opts s).1 = some r) := by
  have hloop := usbip_list_loop_eq w opts false (after_names_init w s) hrec
  have hlist : usbip_list w opts s = usbip_list_loop w opts false (after_names_init w s) := rfl
  have hout : ∀ r : Option Int × State, (usbip_list_out r).1 = r.1 := by
    intro r
    unfold usbip_list_out
    split <;> simp_all
  refine ⟨?_, ?_, ?_, ?_, ?_⟩
  · intro hnone
    rw [hlist, hloop, hnone]
    rfl
  · intro o ho hr
    rw [hlist, hloop, ho]
    simp only [hr, if_true]
    rfl
  · intro o ho hl
    have hnr : o.opt ≠ 'r' := by rw [hl]; decide
    rw [hlist, hloop, ho]
    simp only [hnr, if_false, Bool.false_or]
    constructor
    · split <;> rfl
    · split <;> exact hout _
  · intro pre o post post2 hopts ho hpre
    have hm : is_mode o = true := List.find?_some ho
    rw [hlist, hopts]
    exact usbip_list_loop_ignores_rest w pre o post2 post false _ hm hpre
  · intro hdir
    obtain ⟨entries, he⟩ := Option.ne_none_iff_exists'.mp hdir
    rw [hlist, hloop]
    cases hf : first_mode opts with
    | none => exact ⟨-1, rfl⟩
    | some o =>
      by_cases hr : o.opt = 'r'
      · simp only [hr, if_true]
        exact ⟨_, rfl⟩
      · simp only [hr, if_false, Bool.false_or]
        split
        · exact ⟨0, by simp [hout, show_devices2, he]⟩
        · exact ⟨0, by simp [hout, show_devices, he]⟩

/-- The options `-p -l -r peer`, evaluated: the first mode option is `-l`, preceded by
`-p`, so the parsable local pass runs; nothing is connected or received. -/
theorem usbip_list_first_mode_wins_witness :
    (∀ o ∈ demo_options, o.opt = 'p' ∨ o.opt = 'r' ∨ o.opt = 'l') ∧
    first_mode demo_options = some { opt := 'l', optarg := "" } ∧
    parsable_before demo_options = true ∧
    usbip_list demo_world demo_options (initial two_devices_inbox) =
      (some 0, { initial two_devices_inbox with
        stdout := ["busid=1-1#usbid=Widget#", "1-1:1.0=hub#", "\n",
          "busid=1-1.2#usbid=Gadget#", "\n"],
        names_freed := 1 }) :=
  ⟨by decide, by decide, by decide,
    ((usbip_list_first_mode_wins demo_world demo_options (initial two_devices_inbox)
      (by decide)).2.2.1 { opt := 'l', optarg := "" } (by decide) rfl).1.trans (by decide)⟩

end UsbipList
